import Mathlib

/-!
Verification of the asynchronous device-control core of the repository
(`src/examples/advanced_features/advanced_driver.c` and
`src/examples/async_demo/async_demo_example.c`) against its natural-language
specification.

The driver functions are shallowly embedded: the 64-byte `union data_packet`
is a `List Nat` of byte values, the device record is a Lean structure, and
each C function becomes a Lean function returning the updated device together
with the externally visible effects (submitted transfers, lock/callback
events).  Machine integers are modelled as `Nat`/`Int` with explicit `% 256`
where the C code truncates to `uint8_t`.  The USB transport is abstracted:
`usb_submit_urb` is recorded as a `Submission` (buffer and byte count handed
to the transport) and is assumed to report success (return 0); no claim
depends on a failing submit.
-/

namespace AdvDriver

/-- `enum device_state` from advanced_driver.c (STATE_IDLE = 0, ...,
STATE_ERROR = -1; the numeric values are irrelevant to the claims). -/
inductive DeviceState where
  | IDLE
  | CONNECTING
  | CONNECTED
  | TRANSFERRING
  | ERROR
  deriving DecidableEq, Repr

/-- `result_t` from advanced_driver.c (RESULT_OK = 0, RESULT_BUSY = -EBUSY,
RESULT_NOMEM = -ENOMEM, RESULT_INVALID = -EINVAL). -/
inductive Result where
  | OK
  | BUSY
  | NOMEM
  | INVALID
  deriving DecidableEq, Repr

/-- Command codes of `enum cmd_type`. -/
def CMD_READ : Nat := 0x01

def CMD_WRITE : Nat := 0x02

def CMD_CONTROL : Nat := 0x03

def CMD_STATUS : Nat := 0x04

def CMD_RESET : Nat := 0xFF

/-- A byte value (the C code stores `uint8_t`; truncation is explicit where
the source truncates). -/
abbrev Byte := Nat

/-- `struct device_config`. -/
structure DeviceConfig where
  name : String
  timeout_ms : Int
  retry_count : Int
  auto_reconnect : Bool
  deriving DecidableEq, Repr

/-- The fields of `struct advanced_device` that the driver code reads or
writes.  `tx_buffer`/`rx_buffer` are the 64-byte `union data_packet` in its
raw-bytes view; the frame view is byte 0..3 = header, bytes 4..63 = payload
(aliased, so header/payload accesses are offsets into the same list).
`ctrl_raw` is `ctrl.raw`.  The three callback pointers are modelled by whether
they are non-NULL; their invocations are reported as events/outputs (the
callbacks are external code and do not belong to the driver). -/
structure Device where
  state : DeviceState
  last_result : Result
  tx_buffer : List Byte
  rx_buffer : List Byte
  ctrl_raw : Nat
  config : DeviceConfig
  on_connect : Bool
  on_disconnect : Bool
  on_data : Bool
  deriving DecidableEq, Repr

/-- One call to `usb_submit_urb` via `usb_fill_bulk_urb`: the transfer buffer
(`pkt->bytes`, the whole 64-byte view) and the byte count handed to the
transport (`4 + len` in `send_command`). -/
structure Submission where
  buffer : List Byte
  length : Nat
  deriving DecidableEq, Repr

/-- Lock and callback events, used to express ordering facts such as
"the on-connect callback runs after the spinlock is released". -/
inductive Event where
  | lockAcq
  | lockRel
  | invokeOnConnect
  | invokeOnDisconnect
  deriving DecidableEq, Repr

/-- `memcpy(&p[off], d, d.length)` on the byte-list view: writes the bytes of
`d` at consecutive indices starting at `off` (writes past the end of `p` are
dropped, as `List.set` is; the driver only copies inside the 64-byte union). -/
def writeBytes (p : List Byte) (off : Nat) (d : List Byte) : List Byte :=
  match d with
  | [] => p
  | b :: rest => writeBytes (p.set off b) (off + 1) rest

/-- The packet that `send_command` builds in `tx_buffer`:
`memset(pkt, 0, 64)`, then `header[0] = 0xAA`, `header[1] = cmd`,
`header[2] = len & 0xFF`, `header[3] = (len >> 8) & 0xFF`, then
`if (data && len > 0 && len <= 60) memcpy(payload, data, len)`.
`data = none` models a NULL `data` pointer; when `data = some d` the C
`memcpy` reads `len` bytes from the caller's buffer, modelled as
`d.take len`. -/
def encodePacket (cmd : Nat) (data : Option (List Byte)) (len : Nat) : List Byte :=
  let z := List.replicate 64 (0 : Byte)
  let h := (((z.set 0 0xAA).set 1 (cmd % 256)).set 2 (len % 256)).set 3 ((len / 256) % 256)
  match data with
  | some d => if 0 < len ∧ len ≤ 60 then writeBytes h 4 (d.take len) else h
  | none => h

/-- `send_command` (advanced_driver.c lines 215-245).  Returns the C return
value, the updated device, and the list of transfers submitted.  The guard is
`if (!dev || dev->state == STATE_ERROR) return -EINVAL;` — the NULL-device
case cannot arise in the value model, leaving the `STATE_ERROR` test.  On the
non-error path the packet is built in `tx_buffer`, the state becomes
`STATE_TRANSFERRING`, and a transfer of `4 + len` bytes of `pkt->bytes` is
submitted; the transport's own return code is abstracted as 0 (success). -/
def send_command (dev : Device) (cmd : Nat) (data : Option (List Byte)) (len : Nat) :
    Int × Device × List Submission :=
  if dev.state = DeviceState.ERROR then
    (-22, dev, [])
  else
    let pkt := encodePacket cmd data len
    (0, { dev with tx_buffer := pkt, state := DeviceState.TRANSFERRING },
      [⟨pkt, 4 + len⟩])

/-- Little-endian read of `*(uint32_t *)packet->frame.payload` (payload starts
at byte 4 of the union). -/
def le32 (p : List Byte) (off : Nat) : Nat :=
  p.getD off 0 % 256 + 256 * (p.getD (off + 1) 0 % 256) +
    65536 * (p.getD (off + 2) 0 % 256) + 16777216 * (p.getD (off + 3) 0 % 256)

/-- `process_response` (advanced_driver.c lines 247-274).  `none` models a
NULL `packet` pointer.  The sync byte is `frame.header[0]` (byte 0), the
command code `frame.header[1]` (byte 1).  The `switch` handles
CMD_READ/CMD_WRITE, CMD_STATUS (stores the first payload word into
`ctrl.raw`), and CMD_RESET (state back to STATE_IDLE); everything else —
including CMD_CONTROL — falls into `default` and returns RESULT_INVALID. -/
def process_response (dev : Device) (packet : Option (List Byte)) : Result × Device :=
  match packet with
  | none => (Result.INVALID, dev)
  | some p =>
    if p.getD 0 0 ≠ 0xAA then
      (Result.INVALID, dev)
    else
      let cmd := p.getD 1 0
      if cmd = CMD_READ ∨ cmd = CMD_WRITE then (Result.OK, dev)
      else if cmd = CMD_STATUS then (Result.OK, { dev with ctrl_raw := le32 p 4 })
      else if cmd = CMD_RESET then (Result.OK, { dev with state := DeviceState.IDLE })
      else (Result.INVALID, dev)

/-- `bulk_complete_callback` (advanced_driver.c lines 146-170).  `status` is
`urb->status`; -2 = -ENOENT, -104 = -ECONNRESET, -108 = -ESHUTDOWN.  The
second component reports the `on_data` invocation (buffer and length handed to
the callback) when the hook is registered and the transfer succeeded. -/
def bulk_complete_callback (dev : Device) (status : Int)
    (transfer_buffer : List Byte) (actual_length : Nat) :
    Device × Option (List Byte × Nat) :=
  if status = 0 then
    ({ dev with state := DeviceState.IDLE, last_result := Result.OK },
      if dev.on_data then some (transfer_buffer, actual_length) else none)
  else if status = -2 ∨ status = -104 ∨ status = -108 then
    ({ dev with state := DeviceState.ERROR }, none)
  else
    ({ dev with state := DeviceState.ERROR, last_result := Result.INVALID }, none)

/-- `ctrl_complete_callback` (advanced_driver.c lines 172-183): on status 0,
copy the received register word into `ctrl.raw`. -/
def ctrl_complete_callback (dev : Device) (status : Int) (raw : Nat) : Device :=
  if status = 0 then { dev with ctrl_raw := raw } else dev

/-- `device_work_handler` (advanced_driver.c lines 187-199): under the lock,
if the state is STATE_CONNECTED submit a CMD_STATUS command. -/
def device_work_handler (dev : Device) : Device × List Submission :=
  if dev.state = DeviceState.CONNECTED then
    (send_command dev CMD_STATUS none 0).2
  else
    (dev, [])

/-- `device_delayed_work_handler` (advanced_driver.c lines 201-211), one tick
of the retry policy: if the state is STATE_ERROR and `config.auto_reconnect`
is set, set the state to STATE_CONNECTING and submit a CMD_RESET command
through `send_command`. -/
def device_delayed_work_handler (dev : Device) : Device × List Submission :=
  if dev.state = DeviceState.ERROR ∧ dev.config.auto_reconnect then
    (send_command { dev with state := DeviceState.CONNECTING } CMD_RESET none 0).2
  else
    (dev, [])

/-- `n` consecutive ticks of the retry policy. -/
def delayedTicks : Nat → Device → Device
  | 0, d => d
  | n + 1, d => delayedTicks n (device_delayed_work_handler d).1

/-- `device_open` (advanced_driver.c lines 278-298): under the spinlock, a
state other than STATE_IDLE fails with -EBUSY (-16); otherwise the state
becomes STATE_CONNECTING, the lock is released, and only then is the
on-connect callback invoked (when registered).  The event list records the
lock operations and the callback invocation in program order. -/
def device_open (dev : Device) : Int × Device × List Event :=
  if dev.state ≠ DeviceState.IDLE then
    (-16, dev, [Event.lockAcq, Event.lockRel])
  else
    (0, { dev with state := DeviceState.CONNECTING },
      [Event.lockAcq, Event.lockRel] ++
        (if dev.on_connect then [Event.invokeOnConnect] else []))

/-- `device_release` (advanced_driver.c lines 300-313): invoke the
on-disconnect callback (when registered), then set the state to STATE_IDLE
under the lock. -/
def device_release (dev : Device) : Int × Device × List Event :=
  (0, { dev with state := DeviceState.IDLE },
    (if dev.on_disconnect then [Event.invokeOnDisconnect] else []) ++
      [Event.lockAcq, Event.lockRel])

/-- `device_read` (advanced_driver.c lines 315-330): a state other than
STATE_CONNECTED fails with -ENODEV (-19); otherwise `min(count, 64)` bytes of
`rx_buffer` are copied to the user (the copy is assumed to succeed) and that
count is returned. -/
def device_read (dev : Device) (count : Nat) : Int × List Byte :=
  if dev.state ≠ DeviceState.CONNECTED then
    (-19, [])
  else
    ((min count 64 : Nat), dev.rx_buffer.take (min count 64))

/-- `device_write` (advanced_driver.c lines 332-352): a state other than
STATE_CONNECTED fails with -ENODEV (-19); otherwise `to_copy = min(count,
60)` user bytes are copied into `tx_buffer.frame.payload` (offset 4 of the
union), then `send_command(dev, CMD_WRITE, NULL, to_copy)` is called — note
the NULL data pointer — and on success `to_copy` is reported. -/
def device_write (dev : Device) (buf : List Byte) (count : Nat) :
    Int × Device × List Submission :=
  if dev.state ≠ DeviceState.CONNECTED then
    (-19, dev, [])
  else
    let to_copy := min count 60
    let dev1 := { dev with tx_buffer := writeBytes dev.tx_buffer 4 (buf.take to_copy) }
    let r := send_command dev1 CMD_WRITE none to_copy
    if r.1 < 0 then (r.1, r.2.1, r.2.2) else ((to_copy : Nat), r.2.1, r.2.2)

/-- The device record as `advanced_probe` creates it (advanced_driver.c lines
366-415): kzalloc zero-fills every field (`last_result = 0 = RESULT_OK`,
buffers all zero, callback pointers NULL), the state is set to STATE_IDLE,
and the default configuration is name "advanced_device", timeout 1000 ms,
retry count 3, auto_reconnect true. -/
def initDevice : Device where
  state := DeviceState.IDLE
  last_result := Result.OK
  tx_buffer := List.replicate 64 0
  rx_buffer := List.replicate 64 0
  ctrl_raw := 0
  config := { name := "advanced_device", timeout_ms := 1000, retry_count := 3, auto_reconnect := true }
  on_connect := false
  on_disconnect := false
  on_data := false

/-- A device in STATE_TRANSFERRING (an in-flight transfer). -/
def trDevice : Device := { initDevice with state := DeviceState.TRANSFERRING }

/-- A device in STATE_ERROR. -/
def errDevice : Device := { initDevice with state := DeviceState.ERROR }

/-- A device in STATE_CONNECTED. -/
def connDevice : Device := { initDevice with state := DeviceState.CONNECTED }

/-- A device in STATE_ERROR with auto-reconnect disabled. -/
def noAutoDevice : Device :=
  { initDevice with
    state := DeviceState.ERROR
    config := { initDevice.config with auto_reconnect := false } }

theorem length_writeBytes (d : List Byte) (p : List Byte) (off : Nat) :
    (writeBytes p off d).length = p.length := by
  induction d generalizing p off with
  | nil => rfl
  | cons b rest ih => rw [writeBytes, ih, List.length_set]

theorem writeBytes_eq (d : List Byte) (p : List Byte) (off : Nat)
    (h : off + d.length ≤ p.length) :
    writeBytes p off d = p.take off ++ d ++ p.drop (off + d.length) := by
  induction d generalizing p off with
  | nil =>
    simp only [writeBytes, List.length_nil, Nat.add_zero, List.append_nil]
    exact (List.take_append_drop off p).symm
  | cons b rest ih =>
    simp only [List.length_cons] at h
    have hoff : off < p.length := by omega
    rw [writeBytes, ih (p.set off b) (off + 1) (by rw [List.length_set]; omega)]
    rw [List.drop_set_of_lt _ _ (by omega)]
    have htk : (p.set off b).take (off + 1) = p.take off ++ [b] := by
      rw [List.set_eq_take_cons_drop _ hoff]
      rw [show off + 1 = (p.take off).length + 1 by rw [List.length_take]; omega]
      rw [List.take_append]
      rfl
    rw [htk]
    rw [show off + 1 + rest.length = off + (rest.length + 1) by omega]
    simp [List.append_assoc]

theorem headerBytes_eq (a b c : Nat) :
    ((((List.replicate 64 (0 : Byte)).set 0 0xAA).set 1 a).set 2 b).set 3 c =
      0xAA :: a :: b :: c :: List.replicate 60 0 := by
  rfl

theorem encodePacket_none_eq (cmd len : Nat) :
    encodePacket cmd none len =
      0xAA :: cmd % 256 :: len % 256 :: (len / 256) % 256 :: List.replicate 60 0 := by
  rfl

theorem encodePacket_some_eq (cmd : Nat) (data : List Byte) (len : Nat)
    (hl : data.length = len) (h60 : len ≤ 60) :
    encodePacket cmd (some data) len =
      0xAA :: cmd % 256 :: len % 256 :: (len / 256) % 256 ::
        (data ++ List.replicate (60 - len) 0) := by
  rcases Nat.eq_zero_or_pos len with h0 | hpos
  · subst h0
    have hd : data = [] := List.length_eq_zero.mp hl
    subst hd
    simp [encodePacket]
  · have hcond : 0 < len ∧ len ≤ 60 := ⟨hpos, h60⟩
    have hstep : encodePacket cmd (some data) len =
        writeBytes (((((List.replicate 64 (0 : Byte)).set 0 0xAA).set 1 (cmd % 256)).set 2
          (len % 256)).set 3 ((len / 256) % 256)) 4 (data.take len) := by
      simp only [encodePacket, if_pos hcond]
    rw [hstep, headerBytes_eq]
    have htake : data.take len = data := by rw [← hl]; exact List.take_length data
    rw [htake]
    rw [writeBytes_eq data _ 4 (by simp only [List.length_cons, List.length_replicate]; omega)]
    have hsplit : (0xAA : Byte) :: cmd % 256 :: len % 256 :: (len / 256) % 256 ::
        List.replicate 60 0 =
        [0xAA, cmd % 256, len % 256, (len / 256) % 256] ++ List.replicate 60 (0 : Byte) := rfl
    rw [hsplit]
    rw [List.take_append_of_le_length (by simp)]
    rw [show (4 + data.length) = [0xAA, cmd % 256, len % 256, (len / 256) % 256].length +
      data.length from by simp]
    rw [List.drop_append]
    rw [List.drop_replicate]
    rw [hl]
    rfl

theorem encodePacket_length (cmd : Nat) (data : Option (List Byte)) (len : Nat) :
    (encodePacket cmd data len).length = 64 := by
  cases data with
  | none => rfl
  | some d =>
    by_cases hc : 0 < len ∧ len ≤ 60
    · simp only [encodePacket, if_pos hc]
      rw [length_writeBytes]
      rfl
    · simp only [encodePacket, if_neg hc]
      rfl

/-- Claim C1: the specification says a `send_command`/encode call with
`payload_len > 60` fails with `InvalidArgument` (-EINVAL) and leaves
`tx_buffer` unmodified.  The code has no such check: evaluated at a concrete
oversized call (61 payload bytes, device Idle), `send_command` returns the
submit status (0, not -EINVAL), overwrites `tx_buffer` with a header whose
length field says 61 while the payload copy was silently skipped (payload all
zero), moves the state to STATE_TRANSFERRING, and submits a transfer of
`4 + 61 = 65` bytes out of the 64-byte buffer — an out-of-bounds read handed
to the transport. -/
theorem claim_C1_oversized_payload_not_rejected :
    (send_command initDevice CMD_WRITE (some (List.replicate 61 7)) 61).1 = 0 ∧
    (send_command initDevice CMD_WRITE (some (List.replicate 61 7)) 61).1 ≠ -22 ∧
    (send_command initDevice CMD_WRITE (some (List.replicate 61 7)) 61).2.1.state =
      DeviceState.TRANSFERRING ∧
    (send_command initDevice CMD_WRITE (some (List.replicate 61 7)) 61).2.1.tx_buffer ≠
      initDevice.tx_buffer ∧
    (send_command initDevice CMD_WRITE (some (List.replicate 61 7)) 61).2.1.tx_buffer.drop 4 =
      List.replicate 60 0 ∧
    (send_command initDevice CMD_WRITE (some (List.replicate 61 7)) 61).2.2 =
      [⟨encodePacket CMD_WRITE (some (List.replicate 61 7)) 61, 65⟩] ∧
    (encodePacket CMD_WRITE (some (List.replicate 61 7)) 61).length = 64 := by
  decide

/-- Claim C3: `bulk_complete_callback` on a device with an in-flight transfer
(state STATE_TRANSFERRING): status 0 yields state STATE_IDLE, last_result
RESULT_OK, and invokes `on_data` exactly when the hook is registered; a
shutdown/cancelled status (-ENOENT = -2, -ECONNRESET = -104, -ESHUTDOWN =
-108) yields state STATE_ERROR with `last_result` exactly as before the call;
any other failure status yields state STATE_ERROR and last_result
RESULT_INVALID. -/
theorem claim_C3_completion_transitions (dev : Device) (status : Int)
    (buf : List Byte) (alen : Nat) (h : dev.state = DeviceState.TRANSFERRING) :
    (status = 0 →
      bulk_complete_callback dev status buf alen =
        ({ dev with state := DeviceState.IDLE, last_result := Result.OK },
          if dev.on_data then some (buf, alen) else none)) ∧
    (status = -2 ∨ status = -104 ∨ status = -108 →
      bulk_complete_callback dev status buf alen =
        ({ dev with state := DeviceState.ERROR }, none)) ∧
    (status ≠ 0 → ¬(status = -2 ∨ status = -104 ∨ status = -108) →
      bulk_complete_callback dev status buf alen =
        ({ dev with state := DeviceState.ERROR, last_result := Result.INVALID }, none)) := by
  refine ⟨fun h0 => ?_, fun hs => ?_, fun h0 hs => ?_⟩
  · simp [bulk_complete_callback, h0]
  · rcases hs with h1 | h1 | h1 <;> subst h1 <;> simp [bulk_complete_callback]
  · rw [bulk_complete_callback, if_neg h0, if_neg hs]

theorem claim_C3_witness :
    bulk_complete_callback trDevice 0 [1] 1 =
      ({ trDevice with state := DeviceState.IDLE, last_result := Result.OK },
        if trDevice.on_data then some ([1], 1) else none) ∧
    bulk_complete_callback trDevice (-104) [] 0 =
      ({ trDevice with state := DeviceState.ERROR }, none) ∧
    bulk_complete_callback trDevice 5 [] 0 =
      ({ trDevice with state := DeviceState.ERROR, last_result := Result.INVALID }, none) :=
  ⟨(claim_C3_completion_transitions trDevice 0 [1] 1 rfl).1 rfl,
   (claim_C3_completion_transitions trDevice (-104) [] 0 rfl).2.1 (Or.inr (Or.inl rfl)),
   (claim_C3_completion_transitions trDevice 5 [] 0 rfl).2.2 (by decide) (by decide)⟩

/-- Claim C7: `send_command` on a device in STATE_ERROR always returns
-EINVAL (-22, realizing the spec's `InvalidState`) before doing anything
else: the returned device is the input device unchanged — same `tx_buffer`,
same state, same `last_result` — and no transfer is submitted. -/
theorem claim_C7_error_state_rejected (dev : Device) (cmd : Nat)
    (data : Option (List Byte)) (len : Nat) (h : dev.state = DeviceState.ERROR) :
    send_command dev cmd data len = (-22, dev, []) := by
  simp [send_command, h]

theorem claim_C7_witness :
    send_command errDevice CMD_READ none 0 = (-22, errDevice, []) :=
  claim_C7_error_state_rejected errDevice CMD_READ none 0 rfl

/-- Claim C4: one retry-policy tick.  From STATE_ERROR with auto-reconnect
set, the tick transitions the state to STATE_CONNECTING and then performs the
`send_command` submission protocol for CMD_RESET (the tick equals
`send_command` applied to the device with state CONNECTING; the protocol
itself then moves the state to STATE_TRANSFERRING), submitting exactly one
transfer, whose packet carries command code CMD_RESET.  With auto-reconnect
clear the device is unchanged after arbitrarily many ticks, and from any
state other than STATE_ERROR the tick is a no-op. -/
theorem claim_C4_retry_tick (dev : Device) (n : Nat) :
    (dev.state = DeviceState.ERROR → dev.config.auto_reconnect = true →
      device_delayed_work_handler dev =
        (send_command { dev with state := DeviceState.CONNECTING } CMD_RESET none 0).2 ∧
      (device_delayed_work_handler dev).2 = [⟨encodePacket CMD_RESET none 0, 4⟩] ∧
      ((device_delayed_work_handler dev).2).length = 1 ∧
      (encodePacket CMD_RESET none 0).getD 1 0 = CMD_RESET) ∧
    (dev.config.auto_reconnect = false → delayedTicks n dev = dev) ∧
    (dev.state ≠ DeviceState.ERROR → device_delayed_work_handler dev = (dev, [])) := by
  refine ⟨fun hs ha => ?_, fun ha => ?_, fun hs => ?_⟩
  · have h1 : device_delayed_work_handler dev =
        (send_command { dev with state := DeviceState.CONNECTING } CMD_RESET none 0).2 := by
      rw [device_delayed_work_handler, if_pos ⟨hs, by rw [ha]⟩]
    refine ⟨h1, ?_, ?_, by decide⟩
    · rw [h1]
      simp [send_command]
    · rw [h1]
      simp [send_command]
  · have hstop : device_delayed_work_handler dev = (dev, []) := by
      rw [device_delayed_work_handler, if_neg]
      intro hc
      rw [ha] at hc
      exact Bool.false_ne_true hc.2
    induction n with
    | zero => rfl
    | succ m ih =>
      rw [delayedTicks, hstop]
      exact ih
  · rw [device_delayed_work_handler, if_neg (fun hc => hs hc.1)]

theorem claim_C4_witness :
    (device_delayed_work_handler errDevice).2 = [⟨encodePacket CMD_RESET none 0, 4⟩] ∧
    delayedTicks 5 noAutoDevice = noAutoDevice ∧
    device_delayed_work_handler initDevice = (initDevice, []) :=
  ⟨((claim_C4_retry_tick errDevice 5).1 rfl rfl).2.1,
   (claim_C4_retry_tick noAutoDevice 5).2.1 rfl,
   (claim_C4_retry_tick initDevice 5).2.2 (by decide)⟩

/-- Claim C2 counterexample: the claim includes CMD_CONTROL (0x03) among the
valid command codes, but `process_response` has no `case CMD_CONTROL:` — the
code falls into `default` and returns RESULT_INVALID.  Concretely, encoding a
Control command with payload [5, 6, 7] from the freshly probed device and
decoding the resulting `tx_buffer` yields RESULT_INVALID, not success. -/
theorem claim_C2_counterexample :
    (process_response initDevice
      (some ((send_command initDevice CMD_CONTROL (some [5, 6, 7]) 3).2.1.tx_buffer))).1 =
      Result.INVALID := by
  decide

/-- Claim C2 (amended): for the command codes that `process_response`
recognizes — CMD_READ, CMD_WRITE, CMD_STATUS, CMD_RESET, i.e. all valid codes
except CMD_CONTROL — and any payload of length at most 60, decoding the
`tx_buffer` produced by `send_command` (from any non-Error state) succeeds
with RESULT_OK, the command byte of the buffer is the encoded command, and
the payload bytes of the buffer are exactly the encoded payload. -/
theorem claim_C2_roundtrip (dev d2 : Device) (cmd : Nat) (data : List Byte) (len : Nat)
    (hc : cmd = CMD_READ ∨ cmd = CMD_WRITE ∨ cmd = CMD_STATUS ∨ cmd = CMD_RESET)
    (hs : dev.state ≠ DeviceState.ERROR)
    (hl : data.length = len) (h60 : len ≤ 60) :
    (process_response d2
        (some ((send_command dev cmd (some data) len).2.1.tx_buffer))).1 = Result.OK ∧
    ((send_command dev cmd (some data) len).2.1.tx_buffer).getD 1 0 = cmd ∧
    (((send_command dev cmd (some data) len).2.1.tx_buffer).drop 4).take len = data := by
  have htx : (send_command dev cmd (some data) len).2.1.tx_buffer =
      encodePacket cmd (some data) len := by
    rw [send_command, if_neg hs]
  rw [htx, encodePacket_some_eq cmd data len hl h60]
  have hmod : cmd % 256 = cmd := by
    rcases hc with h1 | h1 | h1 | h1 <;> subst h1 <;> decide
  refine ⟨?_, ?_, ?_⟩
  · rcases hc with h1 | h1 | h1 | h1 <;> subst h1 <;>
      simp [process_response, CMD_READ, CMD_WRITE, CMD_STATUS, CMD_RESET]
  · simp [hmod]
  · have hdrop : ((0xAA : Byte) :: cmd % 256 :: len % 256 :: (len / 256) % 256 ::
        (data ++ List.replicate (60 - len) 0)).drop 4 = data ++ List.replicate (60 - len) 0 :=
      rfl
    rw [hdrop, ← hl, List.take_left]

theorem claim_C2_witness :
    (process_response initDevice
        (some ((send_command initDevice CMD_READ (some [1, 2]) 2).2.1.tx_buffer))).1 =
      Result.OK ∧
    ((send_command initDevice CMD_READ (some [1, 2]) 2).2.1.tx_buffer).getD 1 0 = CMD_READ ∧
    (((send_command initDevice CMD_READ (some [1, 2]) 2).2.1.tx_buffer).drop 4).take 2 =
      [1, 2] :=
  claim_C2_roundtrip initDevice initDevice CMD_READ [1, 2] 2 (Or.inl rfl) (by decide) rfl
    (by decide)

/-- Claim C6 counterexample: the claim says decoding fails *only* for a bad
sync byte, but a buffer whose first byte is the sync value 0xAA and whose
command byte is 0x05 (not a recognized command) is also rejected with
RESULT_INVALID by the `default` arm of the switch. -/
theorem claim_C6_counterexample :
    (0xAA :: 0x05 :: List.replicate 62 (0 : Byte)).getD 0 0 = 0xAA ∧
    (process_response initDevice (some (0xAA :: 0x05 :: List.replicate 62 0))).1 =
      Result.INVALID := by
  decide

/-- Claim C6 (amended): `process_response` rejects a buffer whose first byte
differs from the sync value 0xAA with RESULT_INVALID regardless of the
remaining content, leaving the device completely unmodified; when the sync
byte matches, it fails with RESULT_INVALID exactly when the command byte is
not one of CMD_READ, CMD_WRITE, CMD_STATUS, CMD_RESET (in particular
CMD_CONTROL is also rejected); in every failure case no device field is
mutated. -/
theorem claim_C6_sync_check (dev : Device) (p : List Byte) :
    (p.getD 0 0 ≠ 0xAA → process_response dev (some p) = (Result.INVALID, dev)) ∧
    (p.getD 0 0 = 0xAA →
      ((process_response dev (some p)).1 = Result.INVALID ↔
        ¬(p.getD 1 0 = CMD_READ ∨ p.getD 1 0 = CMD_WRITE ∨ p.getD 1 0 = CMD_STATUS ∨
          p.getD 1 0 = CMD_RESET))) ∧
    ((process_response dev (some p)).1 = Result.INVALID →
      (process_response dev (some p)).2 = dev) := by
  refine ⟨fun hbad => ?_, fun hsync => ?_, fun hinv => ?_⟩
  · rw [process_response, if_pos hbad]
  · rw [process_response, if_neg (fun hne => hne hsync)]
    by_cases h1 : p.getD 1 0 = CMD_READ ∨ p.getD 1 0 = CMD_WRITE
    · rw [if_pos h1]
      simp only [show Result.OK ≠ Result.INVALID from by decide, false_iff]
      intro hno
      exact hno (h1.elim Or.inl (fun h2 => Or.inr (Or.inl h2)))
    · rw [if_neg h1]
      by_cases h2 : p.getD 1 0 = CMD_STATUS
      · rw [if_pos h2]
        simp only [show Result.OK ≠ Result.INVALID from by decide, false_iff]
        intro hno
        exact hno (Or.inr (Or.inr (Or.inl h2)))
      · rw [if_neg h2]
        by_cases h3 : p.getD 1 0 = CMD_RESET
        · rw [if_pos h3]
          simp only [show Result.OK ≠ Result.INVALID from by decide, false_iff]
          intro hno
          exact hno (Or.inr (Or.inr (Or.inr h3)))
        · rw [if_neg h3]
          simp only [true_iff]
          intro hyes
          rcases hyes with h4 | h4 | h4 | h4
          · exact h1 (Or.inl h4)
          · exact h1 (Or.inr h4)
          · exact h2 h4
          · exact h3 h4
  · rw [process_response] at hinv ⊢
    by_cases hbad : p.getD 0 0 ≠ 0xAA
    · rw [if_pos hbad]
    · rw [if_neg hbad] at hinv ⊢
      by_cases h1 : p.getD 1 0 = CMD_READ ∨ p.getD 1 0 = CMD_WRITE
      · rw [if_pos h1]
      · rw [if_neg h1] at hinv ⊢
        by_cases h2 : p.getD 1 0 = CMD_STATUS
        · rw [if_pos h2] at hinv
          simp at hinv
        · rw [if_neg h2] at hinv ⊢
          by_cases h3 : p.getD 1 0 = CMD_RESET
          · rw [if_pos h3] at hinv
            simp at hinv
          · rw [if_neg h3]

theorem claim_C6_witness :
    process_response initDevice (some (0xAB :: List.replicate 63 (0 : Byte))) =
      (Result.INVALID, initDevice) :=
  (claim_C6_sync_check initDevice (0xAB :: List.replicate 63 0)).1 (by decide)

/-- Claim C8: `device_open`.  From STATE_IDLE the call returns 0, the state
becomes STATE_CONNECTING, and the event trace is lock-acquire, lock-release,
then (only when the hook is registered) the on-connect invocation — in
particular the lock release strictly precedes any on-connect invocation in
the trace.  From any other state the call returns -EBUSY (-16), the device is
unchanged, and no callback is invoked. -/
theorem claim_C8_open (dev : Device) :
    (dev.state = DeviceState.IDLE →
      device_open dev = (0, { dev with state := DeviceState.CONNECTING },
        [Event.lockAcq, Event.lockRel] ++
          (if dev.on_connect then [Event.invokeOnConnect] else [])) ∧
      ((device_open dev).2.2).indexOf Event.lockRel <
        ((device_open dev).2.2).indexOf Event.invokeOnConnect) ∧
    (dev.state ≠ DeviceState.IDLE →
      device_open dev = (-16, dev, [Event.lockAcq, Event.lockRel])) := by
  refine ⟨fun hidle => ⟨?_, ?_⟩, fun hne => ?_⟩
  · rw [device_open, if_neg (fun hne => hne hidle)]
  · rw [device_open, if_neg (fun hne => hne hidle)]
    cases hoc : dev.on_connect <;> simp [hoc]
  · rw [device_open, if_pos hne]

theorem claim_C8_witness :
    device_open initDevice = (0, { initDevice with state := DeviceState.CONNECTING },
      [Event.lockAcq, Event.lockRel] ++
        (if initDevice.on_connect then [Event.invokeOnConnect] else [])) ∧
    device_open connDevice = (-16, connDevice, [Event.lockAcq, Event.lockRel]) :=
  ⟨((claim_C8_open initDevice).1 rfl).1, (claim_C8_open connDevice).2 (by decide)⟩

/-- An invocation of one of the driver entry points that can touch the device
record, with its externally supplied arguments.  This is the alphabet of the
reachability argument for claim C9. -/
inductive Op where
  | opOpen
  | opRelease
  | opSend (cmd : Nat) (data : Option (List Byte)) (len : Nat)
  | opBulkComplete (status : Int) (buf : List Byte) (alen : Nat)
  | opCtrlComplete (status : Int) (raw : Nat)
  | opProcessResponse (pkt : Option (List Byte))
  | opWorkTick
  | opDelayedTick
  | opRead (count : Nat)
  | opWrite (buf : List Byte) (count : Nat)
  deriving DecidableEq, Repr

/-- The device record after one entry-point invocation (each case projects the
device component of the corresponding embedded function). -/
def applyOp (dev : Device) : Op → Device
  | Op.opOpen => (device_open dev).2.1
  | Op.opRelease => (device_release dev).2.1
  | Op.opSend cmd data len => (send_command dev cmd data len).2.1
  | Op.opBulkComplete status buf alen => (bulk_complete_callback dev status buf alen).1
  | Op.opCtrlComplete status raw => ctrl_complete_callback dev status raw
  | Op.opProcessResponse pkt => (process_response dev pkt).2
  | Op.opWorkTick => (device_work_handler dev).1
  | Op.opDelayedTick => (device_delayed_work_handler dev).1
  | Op.opRead _ => dev
  | Op.opWrite buf count => (device_write dev buf count).2.1

/-- The device record after a sequence of entry-point invocations. -/
def runOps (dev : Device) (ops : List Op) : Device :=
  ops.foldl applyOp dev

theorem applyOp_state_ne_connected (dev : Device) (op : Op)
    (h : dev.state ≠ DeviceState.CONNECTED) :
    (applyOp dev op).state ≠ DeviceState.CONNECTED := by
  cases op with
  | opOpen =>
    rw [applyOp, device_open]
    split <;> simp [h]
  | opRelease => simp [applyOp, device_release]
  | opSend cmd data len =>
    rw [applyOp, send_command]
    split <;> simp [h]
  | opBulkComplete status buf alen =>
    rw [applyOp, bulk_complete_callback]
    split
    · simp
    · split <;> simp
  | opCtrlComplete status raw =>
    rw [applyOp, ctrl_complete_callback]
    split <;> simp [h]
  | opProcessResponse pkt =>
    rcases pkt with _ | p
    · exact h
    · rw [applyOp]
      simp only [process_response]
      split
      · exact h
      · split
        · exact h
        · split
          · exact h
          · split
            · simp
            · exact h
  | opWorkTick =>
    rw [applyOp, device_work_handler]
    rw [if_neg (fun hc => h hc)]
    exact h
  | opDelayedTick =>
    rw [applyOp, device_delayed_work_handler]
    split
    · rw [send_command]
      split <;> simp
    · exact h
  | opRead count => exact h
  | opWrite buf count =>
    rw [applyOp, device_write]
    rw [if_pos (fun hc => h hc)]
    exact h

theorem runOps_state_ne_connected (ops : List Op) (dev : Device)
    (h : dev.state ≠ DeviceState.CONNECTED) :
    (runOps dev ops).state ≠ DeviceState.CONNECTED := by
  induction ops generalizing dev with
  | nil => exact h
  | cons op rest ih => exact ih (applyOp dev op) (applyOp_state_ne_connected dev op h)

/-- Claim C9: STATE_CONNECTED is unreachable.  No entry point ever assigns
it, so from the initial STATE_IDLE produced by `advanced_probe`, after any
sequence of invocations the state lies in {IDLE, CONNECTING, TRANSFERRING,
ERROR}; consequently `device_read` and `device_write` — which require
STATE_CONNECTED — always fail with -ENODEV (-19) and change nothing, and the
CMD_STATUS submission branch of `device_work_handler` never executes. -/
theorem claim_C9_connected_unreachable (dev : Device) (ops : List Op)
    (buf : List Byte) (count : Nat) (h : dev.state = DeviceState.IDLE) :
    ((runOps dev ops).state = DeviceState.IDLE ∨
     (runOps dev ops).state = DeviceState.CONNECTING ∨
     (runOps dev ops).state = DeviceState.TRANSFERRING ∨
     (runOps dev ops).state = DeviceState.ERROR) ∧
    device_read (runOps dev ops) count = (-19, []) ∧
    device_write (runOps dev ops) buf count = (-19, runOps dev ops, []) ∧
    device_work_handler (runOps dev ops) = (runOps dev ops, []) := by
  have hnc : (runOps dev ops).state ≠ DeviceState.CONNECTED :=
    runOps_state_ne_connected ops dev (by rw [h]; exact fun hc => nomatch hc)
  refine ⟨?_, ?_, ?_, ?_⟩
  · cases hst : (runOps dev ops).state
    · exact Or.inl rfl
    · exact Or.inr (Or.inl rfl)
    · exact absurd hst hnc
    · exact Or.inr (Or.inr (Or.inl rfl))
    · exact Or.inr (Or.inr (Or.inr rfl))
  · rw [device_read, if_pos (fun hc => hnc hc)]
  · rw [device_write, if_pos (fun hc => hnc hc)]
  · rw [device_work_handler, if_neg (fun hc => hnc hc)]

theorem claim_C9_witness :
    device_read (runOps initDevice [Op.opOpen, Op.opSend CMD_STATUS none 0]) 8 = (-19, []) :=
  (claim_C9_connected_unreachable initDevice [Op.opOpen, Op.opSend CMD_STATUS none 0]
    [] 8 rfl).2.1

/-- Claim C10: every command packet this driver actually submits carries an
all-zero payload.  All three `send_command` call sites pass a NULL data
pointer, and `send_command` zero-fills the buffer and skips the payload copy
for NULL data — so the payload of any packet produced by `device_write`, the
work handler, or the retry tick is `replicate 60 0`.  In particular
`device_write` first copies the user's bytes into the payload area, but the
subsequent `send_command(dev, CMD_WRITE, NULL, to_copy)` memsets them away:
the submitted packet and the final `tx_buffer` have an all-zero payload, yet
the call still reports `min(count, 60)` bytes accepted. -/
theorem claim_C10_payload_always_zero (dev : Device) (buf : List Byte) (count : Nat)
    (h : dev.state = DeviceState.CONNECTED) :
    (device_write dev buf count).1 = ((min count 60 : Nat) : Int) ∧
    (device_write dev buf count).2.1.tx_buffer.drop 4 = List.replicate 60 0 ∧
    (device_write dev buf count).2.2 =
      [⟨encodePacket CMD_WRITE none (min count 60), 4 + min count 60⟩] ∧
    (∀ d : Device, ∀ s ∈ (device_work_handler d).2, s.buffer.drop 4 = List.replicate 60 0) ∧
    (∀ d : Device, ∀ s ∈ (device_delayed_work_handler d).2,
      s.buffer.drop 4 = List.replicate 60 0) ∧
    (encodePacket CMD_WRITE none (min count 60)).drop 4 = List.replicate 60 0 := by
  have hzero : ∀ cmd len : Nat, (encodePacket cmd none len).drop 4 = List.replicate 60 0 := by
    intro cmd len
    rw [encodePacket_none_eq]
    rfl
  have hwrite : device_write dev buf count =
      (((min count 60 : Nat) : Int),
        { dev with tx_buffer := encodePacket CMD_WRITE none (min count 60),
                   state := DeviceState.TRANSFERRING },
        [⟨encodePacket CMD_WRITE none (min count 60), 4 + min count 60⟩]) := by
    rw [device_write, if_neg (fun hc => hc h)]
    simp [send_command, h]
  refine ⟨by rw [hwrite], by rw [hwrite]; exact hzero _ _, by rw [hwrite], ?_, ?_,
    hzero _ _⟩
  · intro d s hs
    rw [device_work_handler] at hs
    by_cases hd : d.state = DeviceState.CONNECTED
    · rw [if_pos hd] at hs
      rw [send_command, if_neg (by rw [hd]; exact fun hc => nomatch hc)] at hs
      simp only [List.mem_singleton] at hs
      rw [hs]
      exact hzero _ _
    · rw [if_neg hd] at hs
      exact absurd hs (List.not_mem_nil s)
  · intro d s hs
    rw [device_delayed_work_handler] at hs
    by_cases hd : d.state = DeviceState.ERROR ∧ d.config.auto_reconnect
    · rw [if_pos hd] at hs
      rw [send_command, if_neg (by exact fun hc => nomatch hc)] at hs
      simp only [List.mem_singleton] at hs
      rw [hs]
      exact hzero _ _
    · rw [if_neg hd] at hs
      exact absurd hs (List.not_mem_nil s)

theorem claim_C10_witness :
    (device_write connDevice [9, 9, 9] 3).1 = 3 ∧
    (device_write connDevice [9, 9, 9] 3).2.1.tx_buffer.drop 4 = List.replicate 60 0 :=
  ⟨by
    have h1 := (claim_C10_payload_always_zero connDevice [9, 9, 9] 3 rfl).1
    simpa using h1,
   (claim_C10_payload_always_zero connDevice [9, 9, 9] 3 rfl).2.1⟩

/-- The teardown actions appearing in the two remove paths
(`async_demo_remove` in async_demo_example.c and `advanced_disconnect` in
advanced_driver.c), named after the kernel calls they transcribe.
`free_irq` appears only in comments in the source (no interrupt is ever
registered), so no interrupt-stop step exists in either path. -/
inductive TeardownStep where
  | setRunningZero
  | kthreadStop
  | waitThreadDone
  | hrtimerCancel
  | delTimerSync
  | taskletKill
  | cancelWorkSync
  | cancelDelayedWorkSync
  | usbSetIntfdataNull
  | usbKillCtrlUrb
  | usbKillBulkUrb
  | usbFreeCtrlUrb
  | usbFreeBulkUrb
  | usbPutDev
  | kfreeDev
  deriving DecidableEq, Repr

/-- The straight-line body of `async_demo_remove` (async_demo_example.c lines
254-288) as its sequence of teardown actions: clear the running flag, then —
when a kernel thread was created — `kthread_stop` plus
`wait_for_completion(&thread_done)`, then `hrtimer_cancel`, `del_timer_sync`,
`tasklet_kill`, `cancel_work_sync`, `cancel_delayed_work_sync`.  The device
memory is devm-managed, so the function frees nothing itself. -/
def async_demo_remove_steps (hasKthread : Bool) : List TeardownStep :=
  [TeardownStep.setRunningZero] ++
    (if hasKthread then [TeardownStep.kthreadStop, TeardownStep.waitThreadDone] else []) ++
    [TeardownStep.hrtimerCancel, TeardownStep.delTimerSync, TeardownStep.taskletKill,
     TeardownStep.cancelWorkSync, TeardownStep.cancelDelayedWorkSync]

/-- The straight-line body of `advanced_disconnect` (advanced_driver.c lines
425-448) as its sequence of teardown actions: clear the interface data, cancel
the work items, kill and free both URBs, drop the usb_device reference, free
the device record. -/
def advanced_disconnect_steps : List TeardownStep :=
  [TeardownStep.usbSetIntfdataNull, TeardownStep.cancelWorkSync,
   TeardownStep.cancelDelayedWorkSync, TeardownStep.usbKillCtrlUrb,
   TeardownStep.usbKillBulkUrb, TeardownStep.usbFreeCtrlUrb,
   TeardownStep.usbFreeBulkUrb, TeardownStep.usbPutDev, TeardownStep.kfreeDev]

/-- Step `a` precedes step `b` whenever both occur in the sequence. -/
def stepsBefore (steps : List TeardownStep) (a b : TeardownStep) : Prop :=
  a ∈ steps → b ∈ steps → steps.indexOf a < steps.indexOf b

instance (steps : List TeardownStep) (a b : TeardownStep) :
    Decidable (stepsBefore steps a b) := by
  unfold stepsBefore
  infer_instance

/-- The fixed teardown order asserted by the claim, as ordering constraints
between the steps it names, restricted to steps that occur: (2) the
high-resolution timer before (3) the coarse timer, before (4) the tasklet,
before (5) the work items, before (6) the background-task stop and its
completion wait, before (7) the in-flight-transfer cancel, before (8) the
memory release. -/
def claimedTeardownOrder (steps : List TeardownStep) : Prop :=
  stepsBefore steps TeardownStep.hrtimerCancel TeardownStep.delTimerSync ∧
  stepsBefore steps TeardownStep.delTimerSync TeardownStep.taskletKill ∧
  stepsBefore steps TeardownStep.taskletKill TeardownStep.cancelWorkSync ∧
  stepsBefore steps TeardownStep.cancelWorkSync TeardownStep.kthreadStop ∧
  stepsBefore steps TeardownStep.cancelDelayedWorkSync TeardownStep.kthreadStop ∧
  stepsBefore steps TeardownStep.kthreadStop TeardownStep.usbKillBulkUrb ∧
  stepsBefore steps TeardownStep.usbKillBulkUrb TeardownStep.kfreeDev

instance (steps : List TeardownStep) : Decidable (claimedTeardownOrder steps) := by
  unfold claimedTeardownOrder
  infer_instance

/-- Claim C5 counterexample: `async_demo_remove` (with its kernel thread
present, as `async_demo_probe` creates one) does not follow the claimed fixed
order: it stops the background task and waits for its completion signal
*immediately after* clearing the running flag — before the timers, the
tasklet, and the work items are drained — whereas the claim puts the
background-task stop at position (6), after the work-item cancels. -/
theorem claim_C5_counterexample :
    ¬claimedTeardownOrder (async_demo_remove_steps true) ∧
    (async_demo_remove_steps true).indexOf TeardownStep.kthreadStop <
      (async_demo_remove_steps true).indexOf TeardownStep.cancelWorkSync := by
  decide

/-- Claim C5 (amended): each teardown path drains asynchronous producers in
the order actually coded, and releases memory only after everything is
drained.  `async_demo_remove` first clears the running flag (stopping every
self-re-arming callback from re-scheduling), then stops the background task
and waits for its completion signal, then disarms and drains the
high-resolution timer, the coarse timer, the tasklet, and the one-shot and
periodic work items — and frees nothing (the record is devm-managed).
`advanced_disconnect` cancels and drains both work items, then cancels the
in-flight transfers before freeing their handles, drops the usb_device
reference, and releases the device record strictly last.  Neither driver
registers an interrupt, so no interrupt-stop step exists. -/
theorem claim_C5_teardown_order :
    (∀ b : Bool, (async_demo_remove_steps b).indexOf TeardownStep.setRunningZero = 0) ∧
    stepsBefore (async_demo_remove_steps true) TeardownStep.kthreadStop
      TeardownStep.waitThreadDone ∧
    stepsBefore (async_demo_remove_steps true) TeardownStep.waitThreadDone
      TeardownStep.hrtimerCancel ∧
    stepsBefore (async_demo_remove_steps true) TeardownStep.hrtimerCancel
      TeardownStep.delTimerSync ∧
    stepsBefore (async_demo_remove_steps true) TeardownStep.delTimerSync
      TeardownStep.taskletKill ∧
    stepsBefore (async_demo_remove_steps true) TeardownStep.taskletKill
      TeardownStep.cancelWorkSync ∧
    stepsBefore (async_demo_remove_steps true) TeardownStep.cancelWorkSync
      TeardownStep.cancelDelayedWorkSync ∧
    (∀ b : Bool, TeardownStep.kfreeDev ∉ async_demo_remove_steps b) ∧
    stepsBefore advanced_disconnect_steps TeardownStep.cancelWorkSync
      TeardownStep.usbKillCtrlUrb ∧
    stepsBefore advanced_disconnect_steps TeardownStep.usbKillCtrlUrb
      TeardownStep.usbFreeCtrlUrb ∧
    stepsBefore advanced_disconnect_steps TeardownStep.usbKillBulkUrb
      TeardownStep.usbFreeBulkUrb ∧
    advanced_disconnect_steps.getLast? = some TeardownStep.kfreeDev ∧
    advanced_disconnect_steps.count TeardownStep.kfreeDev = 1 := by
  decide

end AdvDriver
